import Mathlib

/-!
Verification of the VarScrap resumable fetch pipeline.

Shallow embedding of the core pipeline logic of the repository:
the Hermitage scraper's queue-based worker and progress writer
(src/varscrap/scrapers/state_hermitage_museum.py), the Wallace
Collection sequential scraper (src/varscrap/scrapers/wallace_collection.py),
the VandA scraper's seeding and image loop (src/varscrap/scrapers/v_and_a.py),
the shared Scraper._download_image helper (src/varscrap/scrapers/__init__.py)
and the Zotero row converter (src/varscrap/converters/zotero.py).

Python strings are modelled as List Char; Python tuples popped from the
work queue are modelled as List PyVal because the code pushes tuples of
differing arity onto the same queue.
-/

namespace Varscrap

/-- Model of Python str.strip(): drop leading and trailing whitespace. -/
def pyStrip (cs : List Char) : List Char :=
  ((cs.dropWhile Char.isWhitespace).reverse.dropWhile Char.isWhitespace).reverse

/-- Model of iterating a Python text file line by line, with the trailing
newline of each produced line already removed (the code always strips each
line immediately, so removing the newline here is observationally equal).
A file not ending in a newline yields a final line without one; an empty
file yields no lines. -/
def pyFileLines : List Char → List (List Char)
  | [] => []
  | c :: cs =>
    if c = '\n' then [] :: pyFileLines cs
    else
      match pyFileLines cs with
      | [] => [[c]]
      | l :: ls => (c :: l) :: ls

/-- Find the first occurrence of a separator in a character list, returning
the text before it and the text after it. -/
def splitFirst (sep : List Char) : List Char → Option (List Char × List Char)
  | [] => none
  | c :: cs =>
    if sep.isPrefixOf (c :: cs) then some ([], (c :: cs).drop sep.length)
    else
      match splitFirst sep cs with
      | some (pre, post) => some (c :: pre, post)
      | none => none

/-- Model of the Python expression s.split(sep)[1]: the text between the
first and second occurrence of sep, or everything after the first
occurrence when it occurs once. none models the IndexError raised when
sep does not occur. -/
def pySplitSecond (sep s : List Char) : Option (List Char) :=
  match splitFirst sep s with
  | none => none
  | some (_, rest) =>
    match splitFirst sep rest with
    | some (mid, _) => some mid
    | none => some rest

/-- Model of s.replace(old, new) for a single-character pattern. -/
def charReplace (old new : Char) (cs : List Char) : List Char :=
  cs.map (fun c => if c = old then new else c)

/-- Loading the progress ledger, as done identically in
HermitageMuseum.scrape (lines 197-201) and WallaceCollection.scrape
(lines 165-169): when the file exists, list(set(l.strip() for l in fi));
when it is missing, the empty list. Python set order is unspecified, so
the model fixes first-occurrence order via dedup; all claims about the
result are membership claims. -/
def loadProgress (file : Option (List Char)) : List (List Char) :=
  match file with
  | none => []
  | some content => ((pyFileLines content).map pyStrip).dedup

/-! Hermitage worker queue (state_hermitage_museum.py). -/

/-- Values held in the Python tuples that travel through the work queue:
the code pushes strings and ints. -/
inductive PyVal where
  | str : List Char → PyVal
  | int : Nat → PyVal
deriving DecidableEq, Repr

/-- Python runtime errors that the embedded code can raise. -/
inductive PyError where
  | indexError
  | typeError
deriving DecidableEq, Repr

/-- Python tuple indexing obj[i]: IndexError when out of range. -/
def pyIndex (l : List PyVal) (i : Nat) : Except PyError PyVal :=
  match l.get? i with
  | some v => .ok v
  | none => .error .indexError

/-- Reading a PyVal as an int where the Python code compares it with an
int (tries >= 2): a non-int operand would raise TypeError. -/
def asInt : PyVal → Except PyError Nat
  | .int n => .ok n
  | .str _ => .error .typeError

/-- The part of a HermitageMuseumInformation object the pipeline claims
depend on: its object_id and tag; image_name is derived from object_id. -/
structure HermitageInfo where
  object_id : List Char
  tag : Option (List Char)
deriving DecidableEq, Repr

/-- HermitageMuseumInformation.image_name: the object_id with ".jpg". -/
def HermitageInfo.image_name (a : HermitageInfo) : List Char :=
  a.object_id ++ ".jpg".data

/-- What one iteration of HermitageMuseum.__extract_page_worker does with
the popped tuple after calling __extract_page. -/
inductive WorkerAction where
  | success : HermitageInfo → WorkerAction
  | retry : List PyVal → WorkerAction
  | fail : PyVal → WorkerAction
deriving DecidableEq, Repr

/-- One iteration of HermitageMuseum.__extract_page_worker
(state_hermitage_museum.py lines 256-270) on a popped queue entry obj:
url = obj[0]; obj_id = obj[1]; tries = obj[2]; then __extract_page
(modelled by the fetch parameter; None is a failed fetch);
if the fetch failed and tries >= 2 the url goes to failed_queue,
if the fetch failed otherwise the 2-tuple (url, tries + 1) is re-pushed
(this is what line 267 pushes: the obj_id is not part of the new tuple),
and on success the information object goes to output_queue. -/
def workerStep (fetch : PyVal → PyVal → Option HermitageInfo) (obj : List PyVal) :
    Except PyError WorkerAction := do
  let url ← pyIndex obj 0
  let objId ← pyIndex obj 1
  let triesV ← pyIndex obj 2
  let tries ← asInt triesV
  match fetch url objId with
  | none =>
    if tries ≥ 2 then pure (.fail url)
    else pure (.retry [url, .int (tries + 1)])
  | some a => pure (.success a)

/-- Instrumentation: whether one worker iteration on this queue entry
reaches the __extract_page call (the fetch). The call site is reached
exactly when reading obj[0], obj[1], obj[2] and comparing obj[2] with an
int cannot raise; the code reads those before fetching. -/
def workerStepFetches (obj : List PyVal) : Bool :=
  match obj.get? 0, obj.get? 1, obj.get? 2 with
  | some _, some _, some (.int _) => true
  | _, _, _ => false

/-- State of a sequential execution of the worker loop: the pending queue
(FIFO; re-pushed tuples go to the back), what reached the two sinks, the
number of __extract_page invocations, and the first uncaught Python error
(an uncaught error kills the worker thread; queue.task_done() is then
never called for the popped item, so queue.join() in scrape blocks
forever and the remaining queue is never drained). -/
structure WorkerState where
  queue : List (List PyVal)
  succeeded : List HermitageInfo
  failed : List PyVal
  fetchCalls : Nat
  err : Option PyError
deriving DecidableEq, Repr

/-- Initial worker state for a seeded queue. -/
def initWorkerState (queue : List (List PyVal)) : WorkerState :=
  ⟨queue, [], [], 0, none⟩

/-- Sequential run of the worker loop (single worker; fuel bounds the
number of iterations). Stops when the queue is empty, fuel runs out, or
an uncaught Python error kills the worker. -/
def runWorker (fetch : PyVal → PyVal → Option HermitageInfo) :
    Nat → WorkerState → WorkerState
  | 0, st => st
  | fuel + 1, st =>
    match st.err with
    | some _ => st
    | none =>
      match st.queue with
      | [] => st
      | obj :: rest =>
        let calls := st.fetchCalls + (if workerStepFetches obj then 1 else 0)
        match workerStep fetch obj with
        | .error e => { st with queue := rest, fetchCalls := calls, err := some e }
        | .ok (.success a) =>
          runWorker fetch fuel
            { st with queue := rest, succeeded := st.succeeded ++ [a], fetchCalls := calls }
        | .ok (.retry it) =>
          runWorker fetch fuel { st with queue := rest ++ [it], fetchCalls := calls }
        | .ok (.fail u) =>
          runWorker fetch fuel { st with queue := rest, failed := st.failed ++ [u], fetchCalls := calls }

/-- The identifier HermitageMuseum.scrape derives from a result url
(line 209): url.split("/digital-collection/")[1].replace("/", "_").
none models the IndexError when the url has no "/digital-collection/". -/
def hermitageId (url : List Char) : Option (List Char) :=
  match pySplitSecond "/digital-collection/".data url with
  | some s => some (charReplace '/' '_' s)
  | none => none

/-- Seeding loop of HermitageMuseum.scrape (lines 208-211): for each url,
derive its id; enqueue the 3-tuple (url, id, 0) iff the id is not in the
loaded progress list. An id derivation failure is the IndexError that
aborts scrape. -/
def hermitageSeed (objects : List (List Char)) (progress : List (List Char)) :
    Except PyError (List (List PyVal)) :=
  match objects with
  | [] => .ok []
  | url :: rest =>
    match hermitageId url with
    | none => .error .indexError
    | some i =>
      match hermitageSeed rest progress with
      | .error e => .error e
      | .ok tail =>
        .ok (if progress.contains i then tail else [.str url, .str i, .int 0] :: tail)

/-- Worker count computed by HermitageMuseum.scrape (line 213):
min(queue.qsize(), 10), where qsize is the queue depth after seeding. -/
def hermitageWorkerCount (objects progress : List (List Char)) : Except PyError Nat :=
  (hermitageSeed objects progress).map (fun items => min items.length 10)

/-- An ItemFetcher whose every fetch fails: __extract_page returns None. -/
def failFetch : PyVal → PyVal → Option HermitageInfo := fun _ _ => none

/-! Hermitage progress/failure sinks (_write_progress_worker) and the
finalization sequence of scrape. -/

/-- A Python file opened for writing: the durably flushed content and the
content written but still buffered. -/
structure PyFile where
  durable : List Char
  buffer : List Char
deriving DecidableEq, Repr

/-- file.write(s): goes to the buffer. -/
def fileWrite (f : PyFile) (s : List Char) : PyFile :=
  { f with buffer := f.buffer ++ s }

/-- file.flush(): the buffer becomes durable. -/
def fileFlush (f : PyFile) : PyFile :=
  ⟨f.durable ++ f.buffer, []⟩

/-- An element a sink queue can hold: a HermitageMuseumInformation object
(output_queue) or a plain string (failed_queue holds urls). -/
inductive SinkElem where
  | info : HermitageInfo → SinkElem
  | strVal : List Char → SinkElem
deriving DecidableEq, Repr

/-- The string _write_progress_worker writes for an element: object_id for
an information object, the element itself for a string. -/
def sinkProgressOf : SinkElem → List Char
  | .info a => a.object_id
  | .strVal s => s

/-- State of one _write_progress_worker sink: its ledger file and the
in-memory annotations accumulator (passed only for the success sink). -/
structure SinkState where
  file : PyFile
  annots : List HermitageInfo
deriving DecidableEq, Repr

/-- Handling of one non-sentinel element in _write_progress_worker
(state_hermitage_museum.py lines 398-406): append the element to the
annotations list when it is an information object and the accumulator was
passed, then write progress + "\n" and flush. -/
def sinkStep (withAnnots : Bool) (st : SinkState) (e : SinkElem) : SinkState :=
  let st' :=
    match e with
    | .info a => if withAnnots then { st with annots := st.annots ++ [a] } else st
    | .strVal _ => st
  { st' with file := fileFlush (fileWrite st'.file (sinkProgressOf e ++ ['\n'])) }

/-- What one output_queue.get(True, 2) in the drain loop can yield: an
element, the None sentinel, or the Empty exception on timeout. -/
inductive SinkEvent where
  | elem : SinkElem → SinkEvent
  | sentinel : SinkEvent
  | timeout : SinkEvent
deriving DecidableEq, Repr

/-- The drain loop of _write_progress_worker over a schedule of queue
events (lines 393-408): a timeout (Empty) continues the loop, the None
sentinel breaks it, an element is processed and the loop continues. The
Bool is true iff the loop terminated, which happens only by the sentinel
break; an exhausted schedule leaves the loop still waiting. -/
def drainLoop (withAnnots : Bool) (st : SinkState) :
    List SinkEvent → SinkState × Bool
  | [] => (st, false)
  | .sentinel :: _ => (st, true)
  | .timeout :: evs => drainLoop withAnnots st evs
  | .elem e :: evs => drainLoop withAnnots (sinkStep withAnnots st e) evs

/-- Orchestration steps executed by HermitageMuseum.scrape after starting
the writer threads (lines 231-237), in source order: queue.join();
output_queue.join(); failed_queue.join(); output_queue.put(None);
failed_queue.put(None); progress_file.close(); failed_file.close(). -/
inductive PipelineOp where
  | joinQueue : String → PipelineOp
  | putSentinel : String → PipelineOp
  | joinThread : String → PipelineOp
  | closeFile : String → PipelineOp
deriving DecidableEq, Repr

/-- Whether a pipeline step joins a thread. -/
def PipelineOp.isJoinThread : PipelineOp → Bool
  | .joinThread _ => true
  | _ => false

/-- The finalization sequence of HermitageMuseum.scrape, transcribed from
lines 231-237. -/
def hermitageFinalizeOps : List PipelineOp :=
  [.joinQueue "queue", .joinQueue "output_queue", .joinQueue "failed_queue",
   .putSentinel "output_queue", .putSentinel "failed_queue",
   .closeFile "progress_file", .closeFile "failed_file"]

/-- Success-ledger file name used by HermitageMuseum.scrape (line 194)
and WallaceCollection.scrape (line 163). -/
def downloadProgressFileName : List Char := "downloaded.txt".data

/-- Failure-ledger file name used by HermitageMuseum.scrape (line 195). -/
def downloadFailedFileName : List Char := "failed.txt".data

/-! Wallace Collection scraper (wallace_collection.py). -/

/-- ZoteroData (converters/zotero.py): object_id, title, tag. -/
structure ZoteroData where
  object_id : List Char
  title : List Char
  tag : List Char
deriving DecidableEq, Repr

/-- The part of a WallaceCollectionInformation object the claims depend
on: object_id and tag (the tag starts as None and scrape sets it to the
input row's tag); image_name is derived from object_id. -/
structure WallaceInfo where
  object_id : List Char
  tag : Option (List Char)
deriving DecidableEq, Repr

/-- WallaceCollectionInformation.image_name: the object_id with ".jpg". -/
def WallaceInfo.image_name (a : WallaceInfo) : List Char :=
  a.object_id ++ ".jpg".data

/-- Ledger content written by WallaceCollection.scrape on each recorded
identifier (lines 180-181): the file is reopened in mode w, truncated,
and rewritten as "\n".join(download_progress); note there is no trailing
newline and the previous content is replaced, not appended to. -/
def wallaceLedgerContent : List (List Char) → List Char
  | [] => []
  | [p] => p
  | p :: q :: rest => p ++ '\n' :: wallaceLedgerContent (q :: rest)

/-- The fetch-and-record loop of WallaceCollection.scrape (lines 173-181)
over the filtered object list. State: the annotations accumulator, the
in-memory download_progress list, and the ledger file content (none while
the file does not exist yet and no rewrite has happened). A failed fetch
logs and continues; a success appends to annotations and to
download_progress and rewrites the whole ledger file. -/
def wallaceLoop (fetch : ZoteroData → Option WallaceInfo) :
    List ZoteroData → List WallaceInfo → List (List Char) → Option (List Char) →
    List WallaceInfo × List (List Char) × Option (List Char)
  | [], annots, progress, content => (annots, progress, content)
  | obj :: rest, annots, progress, content =>
    match fetch obj with
    | none => wallaceLoop fetch rest annots progress content
    | some a =>
      let progress' := progress ++ [obj.object_id]
      wallaceLoop fetch rest (annots ++ [a]) progress' (some (wallaceLedgerContent progress'))

/-- Row of a final aggregate CSV, restricted to the selected columns
['object_id', 'tag', 'image_name'] of to_dict(). -/
structure AggRow where
  object_id : List Char
  tag : Option (List Char)
  image_name : List Char
deriving DecidableEq, Repr

/-- The to_dict() of a WallaceCollectionInformation object projected on
the selected aggregate columns. -/
def WallaceInfo.row (a : WallaceInfo) : AggRow :=
  ⟨a.object_id, a.tag, a.image_name⟩

/-- The to_dict() of a HermitageMuseumInformation object projected on the
selected aggregate columns. -/
def HermitageInfo.row (a : HermitageInfo) : AggRow :=
  ⟨a.object_id, a.tag, a.image_name⟩

/-- Result of the pandas DataFrame constructor over a list of row dicts
and an explicit index: when the lengths differ, pandas raises
ValueError (Shape of passed values does not match indices); otherwise
one labelled row per dict. -/
inductive PdResult where
  | frame : List (List Char × AggRow) → PdResult
  | valueError : PdResult
deriving DecidableEq, Repr

/-- Model of pd.DataFrame(list-of-dicts, index=labels, columns=...). -/
def pdFrameFromDicts (rows : List AggRow) (index : List (List Char)) : PdResult :=
  if rows.length = index.length then .frame (index.zip rows) else .valueError

/-- Result of one WallaceCollection.scrape run. -/
structure WallaceRun where
  annots : List WallaceInfo
  progress : List (List Char)
  ledger : Option (List Char)
  frame : PdResult
deriving DecidableEq, Repr

/-- The list comprehension on line 173 of WallaceCollection.scrape:
objects whose object_id is not in the loaded download_progress list. -/
def wallaceFiltered (objects : List ZoteroData) (progress0 : List (List Char)) :
    List ZoteroData :=
  objects.filter (fun o => !(progress0.contains o.object_id))

/-- WallaceCollection.scrape (lines 155-188) over already parsed objects:
load the ledger, filter out already recorded identifiers, run the
fetch-and-record loop, then build the aggregate DataFrame from the
annotations as rows but with the object_id of every input object as
index (lines 183-186). -/
def wallaceScrape (fetch : ZoteroData → Option WallaceInfo)
    (objects : List ZoteroData) (ledgerFile : Option (List Char)) : WallaceRun :=
  let progress0 := loadProgress ledgerFile
  let filtered := wallaceFiltered objects progress0
  let (annots, progress, content) := wallaceLoop fetch filtered [] progress0 ledgerFile
  ⟨annots, progress, content,
    pdFrameFromDicts (annots.map WallaceInfo.row) (objects.map ZoteroData.object_id)⟩

/-- A fetch for which every object resolves, returning the information
object WallaceCollection.__extract_page builds on success: object_id from
the input object and tag set to the input row's tag. -/
def wallaceOkFetch : ZoteroData → Option WallaceInfo :=
  fun o => some ⟨o.object_id, some o.tag⟩

/-- A fetch for which every object fails (__extract_page returns None). -/
def wallaceFailFetch : ZoteroData → Option WallaceInfo := fun _ => none

/-- A fetch that resolves the object with identifier 1 and fails on every
other object. -/
def mixedFetch : ZoteroData → Option WallaceInfo :=
  fun o => if o.object_id = "1".data then some ⟨o.object_id, some o.tag⟩ else none

/-- The aggregate DataFrame built by HermitageMuseum.scrape (lines
238-243): both the rows and the index come from the annotations list
collected by the success sink, so the aggregate holds exactly the
successfully resolved objects. -/
def hermitageAggregate (annots : List HermitageInfo) : PdResult :=
  pdFrameFromDicts (annots.map HermitageInfo.row) (annots.map HermitageInfo.object_id)

/-- The state the drain loop of _write_progress_worker has accumulated
after consuming a list of events: elements are processed in order,
timeouts are skipped. Used to state where the loop stands when the
sentinel arrives. -/
def drainFold (withAnnots : Bool) (st : SinkState) : List SinkEvent → SinkState
  | [] => st
  | .elem e :: evs => drainFold withAnnots (sinkStep withAnnots st e) evs
  | .sentinel :: evs => drainFold withAnnots st evs
  | .timeout :: evs => drainFold withAnnots st evs

/-! Zotero converter (converters/zotero.py) and scraper seeding. -/

/-- Match of the Wallace pattern objectId=(?P<objectId>[0-9]+) anchored at
the start of the list: the literal objectId= followed by at least one
digit; the captured group is the maximal digit run. -/
def wallaceIdAt (cs : List Char) : Option (List Char) :=
  if "objectId=".data.isPrefixOf cs then
    let run := (cs.drop "objectId=".data.length).takeWhile Char.isDigit
    if run.isEmpty then none else some run
  else none

/-- re.search of the Wallace pattern: the leftmost match anywhere. -/
def searchWallaceId : List Char → Option (List Char)
  | [] => none
  | c :: cs =>
    match wallaceIdAt (c :: cs) with
    | some r => some r
    | none => searchWallaceId cs

/-- Match of the VandA pattern item/(?P<objectId>O[0-9]+) anchored at the
start of the list: the literal item/ followed by the letter O and at
least one digit; the captured group is O with the maximal digit run. -/
def vandaIdAt (cs : List Char) : Option (List Char) :=
  if "item/".data.isPrefixOf cs then
    match cs.drop "item/".data.length with
    | 'O' :: rest =>
      let run := rest.takeWhile Char.isDigit
      if run.isEmpty then none else some ('O' :: run)
    | _ => none
  else none

/-- re.search of the VandA pattern: the leftmost match anywhere. -/
def searchVandaId : List Char → Option (List Char)
  | [] => none
  | c :: cs =>
    match vandaIdAt (c :: cs) with
    | some r => some r
    | none => searchVandaId cs

/-- Message of the ValueError raised by _extract_item_id. -/
def noObjectIdMsg : List Char := "Cannot find object id in url".data

/-- Model of _extract_item_id (zotero.py lines 31-36): the captured group
of the first match, or ValueError when the pattern does not occur. -/
def extractItemId (search : List Char → Option (List Char)) (url : List Char) :
    Except (List Char) (List Char) :=
  match search url with
  | some m => .ok m
  | none => .error noObjectIdMsg

/-- An input row as read from the Zotero CSV: the Url, Title and Manual
Tags fields parse_row accesses. -/
structure ZoteroRow where
  url : List Char
  title : List Char
  manualTags : List Char
deriving DecidableEq, Repr

/-- Model of parse_row (zotero.py lines 23-28): extract the object id
from the Url field (propagating its ValueError) and build ZoteroData. -/
def parse_row (search : List Char → Option (List Char)) (row : ZoteroRow) :
    Except (List Char) ZoteroData :=
  match extractItemId search row.url with
  | .error e => .error e
  | .ok oid => .ok ⟨oid, row.title, row.manualTags⟩

/-- Seeding of WallaceCollection.scrape (lines 158-161): the list
comprehension [parse_row(row, pattern) for row in input rows], evaluated
fully before any fetch; the first ValueError aborts it. -/
def wallaceSeedRows : List ZoteroRow → Except (List Char) (List ZoteroData)
  | [] => .ok []
  | row :: rest =>
    match parse_row searchWallaceId row with
    | .error e => .error e
    | .ok d =>
      match wallaceSeedRows rest with
      | .error e => .error e
      | .ok ds => .ok (d :: ds)

/-- A full WallaceCollection.scrape run from raw input rows: seeding
(which can raise ValueError) followed by the fetch loop and aggregate. -/
def wallaceScrapeFromRows (fetch : ZoteroData → Option WallaceInfo)
    (rows : List ZoteroRow) (ledgerFile : Option (List Char)) :
    Except (List Char) WallaceRun :=
  match wallaceSeedRows rows with
  | .error e => .error e
  | .ok objects => .ok (wallaceScrape fetch objects ledgerFile)

/-- ShallowVandAInformation: item_id and tag. -/
structure ShallowVandA where
  item_id : List Char
  tag : List Char
deriving DecidableEq, Repr

/-- Seeding loop of VandA.scrape (lines 121-133) with accumulator: parse
the row (a ValueError aborts the run), skip rows whose tag contains an
ignored tag (the ignored list is [";"], and a substring test for the
single character ; is membership of that character), skip duplicated
object ids, and otherwise append a ShallowVandAInformation object. -/
def vandaSeedAux (acc : List ShallowVandA) :
    List ZoteroRow → Except (List Char) (List ShallowVandA)
  | [] => .ok acc
  | row :: rest =>
    match parse_row searchVandaId row with
    | .error e => .error e
    | .ok d =>
      if d.tag.contains ';' then vandaSeedAux acc rest
      else if (acc.map ShallowVandA.item_id).contains d.object_id then vandaSeedAux acc rest
      else vandaSeedAux (acc ++ [⟨d.object_id, d.tag⟩]) rest

/-- Seeding of VandA.scrape, starting from the empty data list. -/
def vandaSeed (rows : List ZoteroRow) : Except (List Char) (List ShallowVandA) :=
  vandaSeedAux [] rows

/-- The phase of VandA.scrape after seeding: __call_api on every seeded
element (line 140-142); seeding errors abort before any call. -/
def vandaDeepPhase {α : Type} (api : ShallowVandA → α) (rows : List ZoteroRow) :
    Except (List Char) (List α) :=
  match vandaSeed rows with
  | .error e => .error e
  | .ok ds => .ok (ds.map api)

/-! Scraper._download_image (scrapers/__init__.py lines 47-57) and its
callers. -/

/-- Model of Scraper._download_image: when the HTTP response is ok the
target file is written chunk by chunk, otherwise an error is logged; the
function body has no return statement, so its value is None on every
path. The first component records whether the file was written, the
second is the returned value. -/
def downloadImage (respOk : Bool) : Bool × Option Unit :=
  if respOk then (true, none) else (false, none)

/-- Python truthiness of an optional value: None is falsy. -/
def pyTruthy : Option Unit → Bool
  | none => false
  | some _ => true

/-- One iteration of the image loop of VandA.scrape (lines 150-164): skip
when the target file exists on disk; otherwise call _download_image and
append the target file to image_names only when the result is truthy. -/
def vandaImageStep (targetOnDisk respOk : Bool) (imageNames : List (List Char))
    (targetFile : List Char) : List (List Char) :=
  if targetOnDisk then imageNames
  else if pyTruthy (downloadImage respOk).2 then imageNames ++ [targetFile]
  else imageNames

/-- The image loop of VandA.scrape over a schedule of (file exists on
disk, response ok, target file) triples. -/
def vandaImageLoop : List (Bool × Bool × List Char) → List (List Char) → List (List Char)
  | [], names => names
  | (onDisk, respOk, target) :: rest, names =>
    vandaImageLoop rest (vandaImageStep onDisk respOk names target)

/-- Rows of the final VandA CSV (lines 166-182): one (item_id, tag,
image_path) row per entry of each element's image_names list. -/
def vandaCsvRows (deep : List (ShallowVandA × List (List Char))) :
    List (List Char × List Char × List Char) :=
  deep.flatMap (fun d => d.2.map (fun ip => (d.1.item_id, d.1.tag, ip)))

/-- The image phase at the end of HermitageMuseum.__extract_page (lines
318-325): when the image file is already on disk return the information
object; otherwise image_ok = _download_image(...), and if image_ok is not
truthy the whole page extraction returns None. -/
def hermitageImagePhase (targetOnDisk respOk : Bool) (info : HermitageInfo) :
    Option HermitageInfo :=
  if targetOnDisk then some info
  else if pyTruthy (downloadImage respOk).2 then some info
  else none

end Varscrap


namespace Varscrap

/-! Helper lemmas. -/

lemma vandaImageStep_eq (onDisk respOk : Bool) (names : List (List Char))
    (target : List Char) : vandaImageStep onDisk respOk names target = names := by
  cases onDisk <;> cases respOk <;> simp [vandaImageStep, downloadImage, pyTruthy]

lemma vandaImageLoop_eq (sched : List (Bool × Bool × List Char))
    (names : List (List Char)) : vandaImageLoop sched names = names := by
  induction sched generalizing names with
  | nil => rfl
  | cons h t ih =>
    obtain ⟨onDisk, respOk, target⟩ := h
    rw [vandaImageLoop, vandaImageStep_eq, ih]

end Varscrap

namespace Varscrap

/-- C1: a transient fetch failure on the very first attempt of the work
item (url = https://h/digital-collection/01/x, id = 01_x, attempt 0) makes
the worker re-push the 2-tuple (url, 1) in which the identifier is NOT
preserved; the worker that pops that tuple raises IndexError at tries =
obj[2] before any further fetch, so an item whose every fetch fails
transiently is fetched exactly once (not 3 times), never reaches the
failure report, and the dead worker leaves the queue un-acknowledged.
This contradicts the claim and the worker docstring (the queue is
documented to hold 3-tuples (url, obj_id, tries)). -/
theorem C1_retry_drops_identifier :
    workerStep failFetch
        [.str "https://h/digital-collection/01/x".data, .str "01_x".data, .int 0] =
      .ok (.retry [.str "https://h/digital-collection/01/x".data, .int 1]) ∧
    workerStep failFetch [.str "https://h/digital-collection/01/x".data, .int 1] =
      .error .indexError ∧
    runWorker failFetch 10 (initWorkerState
        [[.str "https://h/digital-collection/01/x".data, .str "01_x".data, .int 0]]) =
      ⟨[], [], [], 1, some .indexError⟩ :=
  ⟨rfl, rfl, by decide⟩

/-- C3: with input objects 1 and 2, an empty ledger and a fetch that
resolves 1 but leaves 2 unresolved, WallaceCollection.scrape builds the
aggregate from 1 annotation row but an index of 2 identifiers, so pandas
raises ValueError and no aggregate is produced at all; and the Hermitage
aggregate is built from the success annotations only, so it holds exactly
the resolved identifiers and unresolved ones never appear as rows. -/
theorem C3_aggregate_not_covering :
    (wallaceScrape mixedFetch
        [⟨"1".data, "t1".data, "g1".data⟩, ⟨"2".data, "t2".data, "g2".data⟩]
        none).frame = .valueError ∧
    (∀ annots : List HermitageInfo,
      hermitageAggregate annots =
        .frame ((annots.map HermitageInfo.object_id).zip (annots.map HermitageInfo.row))) := by
  constructor
  · decide
  · intro annots
    simp [hermitageAggregate, pdFrameFromDicts]

/-- C7: load() returns the previously recorded identifiers with duplicate
lines removed (set semantics: membership in the loaded list is membership
among the stripped lines of the file), and a missing storage file yields
the empty set rather than an error. -/
theorem C7_progress_load_contract :
    loadProgress none = [] ∧
    (∀ content : List Char, (loadProgress (some content)).Nodup) ∧
    (∀ content x : List Char,
      x ∈ loadProgress (some content) ↔ x ∈ (pyFileLines content).map pyStrip) := by
  refine ⟨rfl, ?_, ?_⟩
  · intro content
    simpa [loadProgress] using List.nodup_dedup ((pyFileLines content).map pyStrip)
  · intro content x
    simp [loadProgress, List.mem_dedup]

/-- C8: the number of worker threads spawned by HermitageMuseum.scrape is
min(queue depth after seeding, 10): never more threads than pending work
items and never more than the cap of 10. -/
theorem C8_worker_count (objects progress : List (List Char))
    (items : List (List PyVal)) (h : hermitageSeed objects progress = .ok items) :
    hermitageWorkerCount objects progress = .ok (min items.length 10) ∧
    min items.length 10 ≤ items.length ∧ min items.length 10 ≤ 10 := by
  refine ⟨?_, Nat.min_le_left _ _, Nat.min_le_right _ _⟩
  unfold hermitageWorkerCount
  rw [h]
  rfl

/-- Witness for C8 at a concrete run: two urls, empty ledger. -/
theorem C8_worker_count_witness :
    hermitageWorkerCount
      ["https://h/digital-collection/a".data, "https://h/digital-collection/c".data]
      [] = .ok 2 := by
  have h := C8_worker_count
    ["https://h/digital-collection/a".data, "https://h/digital-collection/c".data] []
    [[.str "https://h/digital-collection/a".data, .str "a".data, .int 0],
     [.str "https://h/digital-collection/c".data, .str "c".data, .int 0]] rfl
  simpa using h.1

/-- C9: Scraper._download_image returns None for every input, so VandA's
image loop never appends a freshly downloaded image name (for any
schedule the image_names accumulator is unchanged, hence the final CSV
built from image_names is empty), and HermitageMuseum.__extract_page
returns None for every object whose image file was not already on disk. -/
theorem C9_download_image_returns_none :
    (∀ respOk : Bool, (downloadImage respOk).2 = none) ∧
    (∀ (onDisk respOk : Bool) (names : List (List Char)) (target : List Char),
      vandaImageStep onDisk respOk names target = names) ∧
    (∀ (sched : List (Bool × Bool × List Char)) (names : List (List Char)),
      vandaImageLoop sched names = names) ∧
    (∀ (ds : List ShallowVandA) (sched : ShallowVandA → List (Bool × Bool × List Char)),
      vandaCsvRows (ds.map (fun d => (d, vandaImageLoop (sched d) []))) = []) ∧
    (∀ (respOk : Bool) (info : HermitageInfo),
      hermitageImagePhase false respOk info = none) := by
  refine ⟨?_, vandaImageStep_eq, vandaImageLoop_eq, ?_, ?_⟩
  · intro respOk; cases respOk <;> rfl
  · intro ds sched
    induction ds with
    | nil => rfl
    | cons d t ih => simp [vandaCsvRows, vandaImageLoop_eq] at ih ⊢
  · intro respOk info
    cases respOk <;> simp [hermitageImagePhase, downloadImage, pyTruthy]

end Varscrap

namespace Varscrap

/-- C4 counterexample: a work item at the retry ceiling (attempt counter
2) whose fetch fails has its URL, not its identifier, sent to the failure
sink: the sink receives the url string, which differs from the derived
identifier 01_x that the success ledger would use. -/
theorem C4_counterexample :
    workerStep failFetch
        [.str "https://h/digital-collection/01/x".data, .str "01_x".data, .int 2] =
      .ok (.fail (.str "https://h/digital-collection/01/x".data)) ∧
    "https://h/digital-collection/01/x".data ≠ "01_x".data :=
  ⟨rfl, by decide⟩

/-- C4 amended: for every work item that reaches a worker with attempt
counter at least 2 and a failed fetch, its URL (not the derived
identifier) is sent to the failure sink; the failure drain records each
received string on its own newline-terminated line, durably flushed, in
failed.txt, a ledger distinct from the success ledger downloaded.txt. -/
theorem C4_failure_routing (fetch : PyVal → PyVal → Option HermitageInfo)
    (url objId : PyVal) (n : Nat) (hn : 2 ≤ n) (hf : fetch url objId = none) :
    workerStep fetch [url, objId, .int n] = .ok (.fail url) ∧
    (∀ (st : SinkState) (s : List Char),
      (sinkStep false st (.strVal s)).file.durable =
        st.file.durable ++ st.file.buffer ++ (s ++ ['\n']) ∧
      (sinkStep false st (.strVal s)).annots = st.annots) ∧
    downloadFailedFileName ≠ downloadProgressFileName := by
  refine ⟨?_, ?_, by decide⟩
  · have h1 : workerStep fetch [url, objId, .int n] =
        (match fetch url objId with
          | none =>
            if n ≥ 2 then pure (.fail url) else pure (.retry [url, .int (n + 1)])
          | some a => pure (.success a)) := rfl
    rw [h1, hf]
    simp only [ge_iff_le, hn, if_true]
    rfl
  · intro st s
    simp [sinkStep, fileWrite, fileFlush, sinkProgressOf]

/-- Witness for C4 at a concrete item at the ceiling with a failing
fetch. -/
theorem C4_failure_routing_witness :
    workerStep failFetch
        [.str "https://h/digital-collection/01/x".data, .str "01_x".data, .int 2] =
      .ok (.fail (.str "https://h/digital-collection/01/x".data)) ∧
    downloadFailedFileName ≠ downloadProgressFileName := by
  have h := C4_failure_routing failFetch
    (.str "https://h/digital-collection/01/x".data) (.str "01_x".data) 2
    (by decide) rfl
  exact ⟨h.1, h.2.2⟩

/-- C5 counterexample: the finalization sequence of HermitageMuseum.scrape
contains no thread join at all: after sending the sentinels it closes the
ledger files directly. The claim that the pipeline joins the sink threads
is false. -/
theorem C5_counterexample :
    hermitageFinalizeOps.filter PipelineOp.isJoinThread = [] := by decide

/-- C5 amended: after the three queue joins (work queue, then both sink
queues) the pipeline sends a sentinel to each sink and then closes the
ledger files without joining the sink threads; each drain loop never
terminates on timeouts alone (a schedule without the sentinel leaves it
running) and terminates exactly on the first sentinel, having processed
every element before it. -/
theorem C5_finalization (w : Bool) (st : SinkState) :
    (∀ evs : List SinkEvent, .sentinel ∉ evs → (drainLoop w st evs).2 = false) ∧
    (∀ pre post : List SinkEvent, .sentinel ∉ pre →
      drainLoop w st (pre ++ .sentinel :: post) = (drainFold w st pre, true)) ∧
    hermitageFinalizeOps.take 3 =
      [.joinQueue "queue", .joinQueue "output_queue", .joinQueue "failed_queue"] ∧
    hermitageFinalizeOps.drop 3 =
      [.putSentinel "output_queue", .putSentinel "failed_queue",
       .closeFile "progress_file", .closeFile "failed_file"] ∧
    hermitageFinalizeOps.filter PipelineOp.isJoinThread = [] := by
  refine ⟨?_, ?_, by decide, by decide, by decide⟩
  · intro evs
    induction evs generalizing st with
    | nil => intro _; rfl
    | cons ev t ih =>
      intro hs
      cases ev with
      | elem e => exact ih (sinkStep w st e) (fun h => hs (List.mem_cons_of_mem _ h))
      | sentinel => exact absurd (List.mem_cons_self _ _) hs
      | timeout => exact ih st (fun h => hs (List.mem_cons_of_mem _ h))
  · intro pre
    induction pre generalizing st with
    | nil => intro post _; rfl
    | cons ev t ih =>
      intro post hs
      cases ev with
      | elem e =>
        simpa [drainLoop, drainFold] using
          ih (sinkStep w st e) post (fun h => hs (List.mem_cons_of_mem _ h))
      | sentinel => exact absurd (List.mem_cons_self _ _) hs
      | timeout =>
        simpa [drainLoop, drainFold] using ih st post (fun h => hs (List.mem_cons_of_mem _ h))

/-- Witness for C5 on a concrete schedule: a timeout followed by one
element and then the sentinel. -/
theorem C5_finalization_witness :
    (drainLoop true ⟨⟨[], []⟩, []⟩
      [.timeout, .elem (.strVal "u".data)]).2 = false ∧
    drainLoop true ⟨⟨[], []⟩, []⟩
        ([.timeout, .elem (.strVal "u".data)] ++ .sentinel :: []) =
      (drainFold true ⟨⟨[], []⟩, []⟩ [.timeout, .elem (.strVal "u".data)], true) := by
  have h := C5_finalization true ⟨⟨[], []⟩, []⟩
  exact ⟨h.1 _ (by decide), h.2.1 _ _ (by decide)⟩

/-- C6 counterexample: in WallaceCollection.scrape, recording identifier b
after identifier a leaves the ledger file holding the full rewrite a, a
newline, then b: the update is not an append of the prior content with a
newline-terminated line (that would give ab followed by a newline), and
the resulting file is not newline-terminated (it ends in b). A whole run
over objects a and b with every fetch succeeding ends with exactly that
ledger content. -/
theorem C6_counterexample :
    wallaceLedgerContent ["a".data, "b".data] = "a\nb".data ∧
    wallaceLedgerContent ["a".data, "b".data] ≠
      wallaceLedgerContent ["a".data] ++ "b".data ++ ['\n'] ∧
    (wallaceLedgerContent ["a".data, "b".data]).getLast? = some 'b' ∧
    (wallaceScrape wallaceOkFetch
        [⟨"a".data, "t".data, "g".data⟩, ⟨"b".data, "u".data, "h".data⟩]
        none).ledger = some "a\nb".data := by
  refine ⟨by decide, by decide, by decide, by decide⟩

/-- C6 amended: in the Hermitage pipeline every recorded element is
appended to the ledger as one newline-terminated line and the file is
flushed before the drain loop continues (the durable content after the
write is exactly the old durable content, any old buffer, the new line);
the Wallace variant instead rewrites the whole ledger file on each
recorded identifier as the newline-join of the progress list, which
appends a separator and the identifier without a trailing newline. -/
theorem C6_append_and_flush :
    (∀ (w : Bool) (st : SinkState) (e : SinkElem),
      (sinkStep w st e).file.durable =
        st.file.durable ++ st.file.buffer ++ (sinkProgressOf e ++ ['\n']) ∧
      (sinkStep w st e).file.buffer = []) ∧
    (∀ (ps : List (List Char)) (x : List Char), ps ≠ [] →
      wallaceLedgerContent (ps ++ [x]) = wallaceLedgerContent ps ++ '\n' :: x) := by
  constructor
  · intro w st e
    cases e <;> cases w <;>
      simp [sinkStep, fileWrite, fileFlush, sinkProgressOf]
  · intro ps
    induction ps with
    | nil => intro x h; exact absurd rfl h
    | cons p t ih =>
      intro x _
      cases t with
      | nil => rfl
      | cons q r =>
        have hstep : wallaceLedgerContent ((q :: r) ++ [x]) =
            wallaceLedgerContent (q :: r) ++ '\n' :: x := ih x (by simp)
        calc wallaceLedgerContent ((p :: q :: r) ++ [x])
            = p ++ '\n' :: wallaceLedgerContent ((q :: r) ++ [x]) := rfl
          _ = p ++ '\n' :: (wallaceLedgerContent (q :: r) ++ '\n' :: x) := by
              rw [hstep]
          _ = (p ++ '\n' :: wallaceLedgerContent (q :: r)) ++ '\n' :: x := by
              simp [List.append_assoc]
          _ = wallaceLedgerContent (p :: q :: r) ++ '\n' :: x := rfl

/-- Witness for C6 on concrete states: one sink append and one Wallace
rewrite. -/
theorem C6_append_and_flush_witness :
    (sinkStep false ⟨⟨"x\n".data, []⟩, []⟩ (.strVal "y".data)).file.durable =
      "x\n".data ++ [] ++ ("y".data ++ ['\n']) ∧
    wallaceLedgerContent (["a".data] ++ ["b".data]) =
      wallaceLedgerContent ["a".data] ++ '\n' :: "b".data := by
  have h := C6_append_and_flush
  exact ⟨(h.1 false ⟨⟨"x\n".data, []⟩, []⟩ (.strVal "y".data)).1,
    h.2 ["a".data] "b".data (by decide)⟩

end Varscrap

namespace Varscrap

lemma hermitageSeed_spec :
    ∀ (objects progress : List (List Char)) (items : List (List PyVal)),
      hermitageSeed objects progress = .ok items →
      ∀ it ∈ items, ∃ url i, it = [.str url, .str i, .int 0] ∧ url ∈ objects ∧
        hermitageId url = some i ∧ progress.contains i = false := by
  intro objects
  induction objects with
  | nil =>
    intro progress items h it hit
    simp only [hermitageSeed, Except.ok.injEq] at h
    subst h
    simp at hit
  | cons url rest ih =>
    intro progress items h it hit
    simp only [hermitageSeed] at h
    cases hid : hermitageId url with
    | none => rw [hid] at h; cases h
    | some i =>
      rw [hid] at h
      cases hrest : hermitageSeed rest progress with
      | error e => rw [hrest] at h; cases h
      | ok tail =>
        rw [hrest] at h
        simp only [Except.ok.injEq] at h
        cases hc : progress.contains i with
        | true =>
          rw [if_pos hc] at h
          subst h
          obtain ⟨u, j, heq, hu, hj, hcj⟩ := ih progress tail hrest it hit
          exact ⟨u, j, heq, List.mem_cons_of_mem _ hu, hj, hcj⟩
        | false =>
          rw [if_neg (show ¬ progress.contains i = true by rw [hc]; simp)] at h
          subst h
          rcases List.mem_cons.mp hit with rfl | hmem
          · exact ⟨url, i, rfl, List.mem_cons_self _ _, hid, hc⟩
          · obtain ⟨u, j, heq, hu, hj, hcj⟩ := ih progress tail hrest it hmem
            exact ⟨u, j, heq, List.mem_cons_of_mem _ hu, hj, hcj⟩

lemma hermitageSeed_mem :
    ∀ (objects progress : List (List Char)) (items : List (List PyVal)),
      hermitageSeed objects progress = .ok items →
      ∀ url i, url ∈ objects → hermitageId url = some i →
        progress.contains i = false → [.str url, .str i, .int 0] ∈ items := by
  intro objects
  induction objects with
  | nil =>
    intro progress items _ url i hurl
    simp at hurl
  | cons u rest ih =>
    intro progress items h url i hurl hid hc
    simp only [hermitageSeed] at h
    cases hu : hermitageId u with
    | none => rw [hu] at h; cases h
    | some j =>
      rw [hu] at h
      cases hrest : hermitageSeed rest progress with
      | error e => rw [hrest] at h; cases h
      | ok tail =>
        rw [hrest] at h
        simp only [Except.ok.injEq] at h
        subst h
        rcases List.mem_cons.mp hurl with rfl | hmem
        · rw [hid] at hu
          injection hu with hu
          subst hu
          rw [hc, if_neg (by simp)]
          exact List.mem_cons_self _ _
        · have htail := ih progress tail hrest url i hmem hid hc
          cases hcj : progress.contains j with
          | true => rw [if_pos rfl]; exact htail
          | false => rw [if_neg (by simp)]; exact List.mem_cons_of_mem _ htail

end Varscrap

namespace Varscrap

/-- C2: identifiers in the loaded ledger are never enqueued (every
enqueued Hermitage work item carries an identifier absent from the
ledger), every input url whose derived identifier is absent from the
ledger is enqueued, and the Wallace run iterates exactly over the objects
whose identifier is absent from the loaded ledger. With a ledger holding
a and b and input deriving a, b and c, only the item for c is enqueued. -/
theorem C2_idempotent_resume (objects progress : List (List Char))
    (items : List (List PyVal)) (hseed : hermitageSeed objects progress = .ok items) :
    (∀ url i, [.str url, .str i, .int 0] ∈ items → i ∉ progress) ∧
    (∀ url i, url ∈ objects → hermitageId url = some i → i ∉ progress →
      [.str url, .str i, .int 0] ∈ items) ∧
    (∀ (wobjects : List ZoteroData) (wprogress : List (List Char)) (o : ZoteroData),
      o ∈ wallaceFiltered wobjects wprogress ↔ o ∈ wobjects ∧ o.object_id ∉ wprogress) := by
  refine ⟨?_, ?_, ?_⟩
  · intro url i hmem hin
    obtain ⟨u, j, heq, _, _, hcj⟩ := hermitageSeed_spec objects progress items hseed _ hmem
    simp only [List.cons.injEq, PyVal.str.injEq, PyVal.int.injEq, and_true] at heq
    obtain ⟨rfl, rfl⟩ := heq
    rw [List.contains, List.elem_eq_mem, decide_eq_false_iff_not] at hcj
    exact hcj hin
  · intro url i hurl hid hnin
    exact hermitageSeed_mem objects progress items hseed url i hurl hid
      (by rw [List.contains, List.elem_eq_mem, decide_eq_false_iff_not]; exact hnin)
  · intro wobjects wprogress o
    simp [wallaceFiltered, List.mem_filter, List.contains]

/-- Witness for C2: ledger {a, b}, input urls deriving a, b and c; the
seeded queue is exactly the item for c, the item for a is absent. -/
theorem C2_idempotent_resume_witness :
    ([.str "https://h/digital-collection/c".data, .str "c".data, .int 0] ∈
      ([[.str "https://h/digital-collection/c".data, .str "c".data, .int 0]] :
        List (List PyVal))) ∧
    ¬ ([.str "https://h/digital-collection/a".data, .str "a".data, .int 0] ∈
      ([[.str "https://h/digital-collection/c".data, .str "c".data, .int 0]] :
        List (List PyVal))) := by
  have h := C2_idempotent_resume
    ["https://h/digital-collection/a".data, "https://h/digital-collection/b".data,
     "https://h/digital-collection/c".data]
    ["a".data, "b".data]
    [[.str "https://h/digital-collection/c".data, .str "c".data, .int 0]] rfl
  constructor
  · exact h.2.1 "https://h/digital-collection/c".data "c".data (by decide) rfl
      (by decide)
  · intro hmem
    exact absurd (by decide : "a".data ∈ (["a".data, "b".data] : List (List Char)))
      (h.1 "https://h/digital-collection/a".data "a".data hmem)

end Varscrap

namespace Varscrap

lemma parse_row_ok_isSome (search : List Char → Option (List Char))
    (row : ZoteroRow) (d : ZoteroData) (h : parse_row search row = .ok d) :
    (search row.url).isSome := by
  cases hs : search row.url <;> simp [parse_row, extractItemId, hs] at h ⊢

lemma parse_row_error_msg (search : List Char → Option (List Char))
    (row : ZoteroRow) (e : List Char) (h : parse_row search row = .error e) :
    e = noObjectIdMsg := by
  cases hs : search row.url <;> simp [parse_row, extractItemId, hs] at h
  · exact h.symm

lemma wallaceSeedRows_ok (rows : List ZoteroRow) :
    ∀ ds, wallaceSeedRows rows = .ok ds →
      ∀ row ∈ rows, (searchWallaceId row.url).isSome := by
  induction rows with
  | nil => intro ds _ row hrow; simp at hrow
  | cons r t ih =>
    intro ds h row hrow
    simp only [wallaceSeedRows] at h
    split at h
    · cases h
    · next d hp =>
      split at h
      · cases h
      · next ds2 ht =>
        rcases List.mem_cons.mp hrow with rfl | hmem
        · exact parse_row_ok_isSome _ _ _ hp
        · exact ih ds2 ht row hmem

lemma wallaceSeedRows_error (rows : List ZoteroRow) :
    ∀ e, wallaceSeedRows rows = .error e → e = noObjectIdMsg := by
  induction rows with
  | nil => intro e h; cases h
  | cons r t ih =>
    intro e h
    simp only [wallaceSeedRows] at h
    split at h
    · next e2 hp =>
      cases h
      exact parse_row_error_msg _ _ _ hp
    · next d hp =>
      split at h
      · next e2 ht =>
        cases h
        exact ih _ ht
      · cases h

lemma vandaSeedAux_ok (rows : List ZoteroRow) :
    ∀ acc ds, vandaSeedAux acc rows = .ok ds →
      ∀ row ∈ rows, (searchVandaId row.url).isSome := by
  induction rows with
  | nil => intro acc ds _ row hrow; simp at hrow
  | cons r t ih =>
    intro acc ds h row hrow
    simp only [vandaSeedAux] at h
    split at h
    · cases h
    · next d hp =>
      rcases List.mem_cons.mp hrow with rfl | hmem
      · exact parse_row_ok_isSome _ _ _ hp
      · split at h
        · exact ih _ ds h row hmem
        · split at h
          · exact ih _ ds h row hmem
          · exact ih _ ds h row hmem

lemma vandaSeedAux_error (rows : List ZoteroRow) :
    ∀ acc e, vandaSeedAux acc rows = .error e → e = noObjectIdMsg := by
  induction rows with
  | nil => intro acc e h; cases h
  | cons r t ih =>
    intro acc e h
    simp only [vandaSeedAux] at h
    split at h
    · next e2 hp =>
      cases h
      exact parse_row_error_msg _ _ _ hp
    · next d hp =>
      split at h
      · exact ih _ e h
      · split at h
        · exact ih _ e h
        · exact ih _ e h

end Varscrap

namespace Varscrap

/-- C10: when some input row's Url does not match the scraper's object-id
pattern, the whole run errors with the ValueError message of
_extract_item_id during seeding: the Wallace run returns that error for
every fetch function and ledger (so before any item is fetched), and the
VandA deep phase returns that error for every api function. -/
theorem C10_malformed_url_aborts (rows : List ZoteroRow) (row : ZoteroRow)
    (hrow : row ∈ rows) :
    (searchWallaceId row.url = none →
      ∀ (fetch : ZoteroData → Option WallaceInfo) (ledger : Option (List Char)),
        wallaceScrapeFromRows fetch rows ledger = .error noObjectIdMsg) ∧
    (searchVandaId row.url = none →
      ∀ (α : Type) (api : ShallowVandA → α),
        vandaDeepPhase api rows = .error noObjectIdMsg) := by
  constructor
  · intro hw fetch ledger
    unfold wallaceScrapeFromRows
    cases h : wallaceSeedRows rows with
    | error e => rw [wallaceSeedRows_error rows e h]
    | ok ds =>
      have := wallaceSeedRows_ok rows ds h row hrow
      rw [hw] at this
      cases this
  · intro hv α api
    unfold vandaDeepPhase vandaSeed
    cases h : vandaSeedAux [] rows with
    | error e => rw [vandaSeedAux_error rows [] e h]
    | ok ds =>
      have := vandaSeedAux_ok rows [] ds h row hrow
      rw [hv] at this
      cases this

/-- Witness for C10: a single row whose Url matches neither pattern
aborts both runs with the ValueError message. -/
theorem C10_malformed_url_aborts_witness :
    wallaceScrapeFromRows wallaceOkFetch
        [⟨"http://x/y".data, "t".data, "g".data⟩] none = .error noObjectIdMsg ∧
    vandaDeepPhase (fun d => d.item_id)
        [⟨"http://x/y".data, "t".data, "g".data⟩] = .error noObjectIdMsg := by
  have h := C10_malformed_url_aborts [⟨"http://x/y".data, "t".data, "g".data⟩]
    ⟨"http://x/y".data, "t".data, "g".data⟩ (by simp)
  exact ⟨h.1 (by decide) wallaceOkFetch none, h.2 (by decide) (List Char) (fun d => d.item_id)⟩

end Varscrap
